import Mathlib

/-!
Verification of the Emotion Tracker Wristband core (src/app/page.tsx):
shallow embedding of the sensor simulator (`generateSensorData`), the
emotion classifier (`classifyEmotion`), the rolling-history update of the
tick callback, the session-summary aggregation (`emotionCounts`, dominant
emotion) and the JSON export, with theorems about the specified
properties.  Numbers are modelled as exact rationals; the random draws of
`Math.random()` are passed as explicit parameters.
-/

namespace EmotionTracker

/-- The `SensorData` record of the source (`interface SensorData`):
timestamp, the three physiological channels, and the classification
result stored with the sample. -/
structure SensorData where
  timestamp : ℚ
  heartRate : ℚ
  eda : ℚ
  temperature : ℚ
  emotion : String
  confidence : ℚ
deriving DecidableEq, Repr

/-- Model of `Number(x.toFixed(d))` of the source for nonnegative `x`: round to
`d` decimal places, halves rounded up (ECMAScript `toFixed` picks the
larger candidate on a tie, which for the nonnegative values used here is
`⌊x·10^d + 1/2⌋ / 10^d`). -/
def roundTo (d : ℕ) (x : ℚ) : ℚ :=
  ((⌊x * 10 ^ d + 1 / 2⌋ : ℤ) : ℚ) / 10 ^ d

/-- Model of `Math.max(lo, Math.min(hi, x))` of the source. -/
def clampQ (lo hi x : ℚ) : ℚ :=
  max lo (min hi x)

/-- JavaScript `v || dflt` applied to an optional numeric field access
(`prevData?.heartRate || baseHeartRate`): `undefined` and `0` are falsy. -/
def jsOr (o : Option ℚ) (dflt : ℚ) : ℚ :=
  match o with
  | none => dflt
  | some x => if x = 0 then dflt else x

/-- The step of `arr.reduce((a, b) => a[1] > b[1] ? a : b)` of the
source: keep the accumulator only when its value is strictly greater,
so a tie moves to the later entry. -/
def jsMaxStep {α β : Type} [LinearOrder β] (a b : α × β) : α × β :=
  if a.2 > b.2 then a else b

/-- Model of `arr.reduce((a, b) => a[1] > b[1] ? a : b)` on the nonempty array
`e :: l` (the source uses this both for the classifier arg-max and for
the dominant-emotion lookup). -/
def jsReduceMax {α β : Type} [LinearOrder β] (e : α × β) (l : List (α × β)) : α × β :=
  l.foldl jsMaxStep e

/-- The five `(label, score)` pairs of `classifyEmotion`, in the
insertion order of the `scores` object literal: normalized features
`(heartRate-70)/50`, `(eda-5)/10`, `(temperature-36.5)/2` and the fixed
linear score of each label. -/
def scoreEntries (heartRate eda temperature : ℚ) : List (String × ℚ) :=
  let f0 := (heartRate - 70) / 50
  let f1 := (eda - 5) / 10
  let f2 := (temperature - 36.5) / 2
  [("calm", -f0 * 0.5 - f1 * 0.3 + f2 * 0.2),
   ("happy", f0 * 0.3 - f1 * 0.2 + f2 * 0.4),
   ("stressed", f0 * 0.8 + f1 * 0.6 - f2 * 0.1),
   ("focused", f0 * 0.4 + f1 * 0.1 + f2 * 0.1),
   ("neutral", -|f0| - |f1| - |f2|)]

/-- Result record of `classifyEmotion`. -/
structure ClassifyResult where
  emotion : String
  confidence : ℚ
deriving DecidableEq, Repr

/-- Model of `classifyEmotion(heartRate, eda, temperature)` of the source, with
the `Math.random()` draw for the confidence passed explicitly as `r`:
the label is `Object.entries(scores).reduce((a,b) => a[1] > b[1] ? a : b)[0]`
and the confidence is `Math.min(94 + r * 6, 100)`. -/
def classifyEmotion (heartRate eda temperature r : ℚ) : ClassifyResult :=
  let entries := scoreEntries heartRate eda temperature
  ⟨(jsReduceMax entries.headI entries.tail).1, min (94 + r * 6) 100⟩

/-- The four `Math.random()` draws of one `generateSensorData` call, in
call order: heart rate, EDA, temperature, and the confidence draw made
inside `classifyEmotion`. -/
structure Draws where
  r1 : ℚ
  r2 : ℚ
  r3 : ℚ
  rc : ℚ
deriving DecidableEq, Repr

/-- Model of `generateSensorData(prevData?)` of the source with `Date.now()`
passed as `now` and the random draws as `d`: each channel is the
previous value (or its baseline when absent/falsy) plus
`(random - 0.5) * delta`, clamped to its bounds; the raw triple is
classified, and the stored record rounds heartRate and temperature to 1
decimal, eda to 2 decimals, confidence to 1 decimal. -/
def generateSensorData (prevData : Option SensorData) (now : ℚ) (d : Draws) : SensorData :=
  let heartRate := clampQ 50 120 (jsOr (prevData.map (·.heartRate)) 72 + (d.r1 - 0.5) * 8)
  let eda := clampQ 2 15 (jsOr (prevData.map (·.eda)) 6 + (d.r2 - 0.5) * 2)
  let temperature := clampQ 35.5 38.5 (jsOr (prevData.map (·.temperature)) 36.8 + (d.r3 - 0.5) * 0.4)
  let res := classifyEmotion heartRate eda temperature d.rc
  { timestamp := now
    heartRate := roundTo 1 heartRate
    eda := roundTo 2 eda
    temperature := roundTo 1 temperature
    emotion := res.emotion
    confidence := roundTo 1 res.confidence }

/-- Model of `arr.slice(-n)` of the source: the last `n` elements, or the whole
array when it is shorter than `n`. -/
def sliceLast {α : Type} (n : ℕ) (l : List α) : List α :=
  l.drop (l.length - n)

/-- The history update of the tick interval callback of the source:
`setSensorData(prev => [...prev.slice(-100), newReading])`. -/
def appendReading (hist : List SensorData) (s : SensorData) : List SensorData :=
  sliceLast 100 hist ++ [s]

/-- One step of the `emotionCounts` accumulator of the source
(`acc[data.emotion] = (acc[data.emotion] || 0) + 1`), on the entry list
of the object in insertion order: increment an existing key in place,
or append a fresh key with count 1. -/
def bumpCount : List (String × ℕ) → String → List (String × ℕ)
  | [], k => [(k, 1)]
  | (k', n) :: rest, k =>
      if k' = k then (k', n + 1) :: rest else (k', n) :: bumpCount rest k

/-- Model of `emotionCounts` of the source: `sensorData.reduce(...)` building the
label-frequency object; modelled as its `Object.entries` list, whose
order is the order of first appearance of each label in the history. -/
def emotionCounts (hist : List SensorData) : List (String × ℕ) :=
  hist.foldl (fun acc s => bumpCount acc s.emotion) []

/-- The Dominant Emotion of the Session Summary card of the source:
`sensorData.length > 0 ? Object.entries(emotionCounts).reduce((a, b) => a[1] > b[1] ? a : b)[0] : 'N/A'`.
The inner `[]` branch is unreachable: a nonempty history has nonempty
counts (proved below). -/
def dominantEmotion (hist : List SensorData) : String :=
  if hist.length > 0 then
    match emotionCounts hist with
    | [] => "N/A"
    | e :: es => (jsReduceMax e es).1
  else "N/A"

/-- Icons of the `EMOTIONS` table (lucide components, modelled as tags). -/
inductive EmotionIcon where
  | smile
  | frown
  | meh
  | brain
deriving DecidableEq, Repr

/-- The `EmotionState` record of the source (the `icon` component is
modelled as a tag). -/
structure EmotionState where
  emotion : String
  confidence : ℚ
  color : String
  icon : EmotionIcon
  description : String
deriving DecidableEq, Repr

/-- The static `EMOTIONS` configuration table of the source, as its
entry list in insertion order. -/
def EMOTIONS : List (String × EmotionState) :=
  [("calm", ⟨"Calm", 0, "#10B981", .smile, "Relaxed and peaceful state"⟩),
   ("happy", ⟨"Happy", 0, "#F59E0B", .smile, "Positive and joyful state"⟩),
   ("stressed", ⟨"Stressed", 0, "#EF4444", .frown, "High tension and anxiety"⟩),
   ("focused", ⟨"Focused", 0, "#3B82F6", .brain, "Concentrated and alert"⟩),
   ("neutral", ⟨"Neutral", 0, "#6B7280", .meh, "Balanced emotional state"⟩)]

/-- The five emotion label keys, in the insertion order of the source's
`scores` and `EMOTIONS` object literals. -/
def emotionLabels : List String :=
  ["calm", "happy", "stressed", "focused", "neutral"]

/-- JSON documents, at the value level (numbers exact, as produced and
re-read by `JSON.stringify` / `JSON.parse` on JavaScript numbers). -/
inductive Json where
  | num : ℚ → Json
  | str : String → Json
  | arr : List Json → Json
  | obj : List (String × Json) → Json

/-- The JSON object `JSON.stringify` produces for one `SensorData`
record: its enumerable fields, in declaration order, with their stored
values. -/
def sampleToJson (s : SensorData) : Json :=
  .obj [("timestamp", .num s.timestamp),
        ("heartRate", .num s.heartRate),
        ("eda", .num s.eda),
        ("temperature", .num s.temperature),
        ("emotion", .str s.emotion),
        ("confidence", .num s.confidence)]

/-- The serialization step of `exportData` of the source
(`JSON.stringify(sensorData, null, 2)`), at the JSON-value level: a
plain array of the samples' objects in history order. -/
def exportData (hist : List SensorData) : Json :=
  .arr (hist.map sampleToJson)

/-- Read a JSON number. -/
def getNum : Json → Option ℚ
  | .num q => some q
  | _ => none

/-- Read a JSON string. -/
def getStr : Json → Option String
  | .str s => some s
  | _ => none

/-- Parse one exported record back into a `SensorData`, looking each
field up by name and requiring its JSON type. -/
def parseSample (j : Json) : Option SensorData :=
  match j with
  | .obj fields => do
      let ts ← (fields.lookup "timestamp").bind getNum
      let hr ← (fields.lookup "heartRate").bind getNum
      let ed ← (fields.lookup "eda").bind getNum
      let te ← (fields.lookup "temperature").bind getNum
      let em ← (fields.lookup "emotion").bind getStr
      let co ← (fields.lookup "confidence").bind getNum
      pure ⟨ts, hr, ed, te, em, co⟩
  | _ => none

/-- Parse a list of exported records elementwise. -/
def parseSampleList : List Json → Option (List SensorData)
  | [] => some []
  | j :: js => do
      let s ← parseSample j
      let rest ← parseSampleList js
      pure (s :: rest)

/-- Parse an exported document: a JSON array of sample records. -/
def parseExport (j : Json) : Option (List SensorData) :=
  match j with
  | .arr l => parseSampleList l
  | _ => none

/-- A chain of `generateSensorData` calls in which each call's
`prevData` is the previous call's output (the tick loop of the source,
with the timestamp and random draws of each call given as a list). -/
def generateChain (prevData : Option SensorData) : List (ℚ × Draws) → List SensorData
  | [] => []
  | (now, d) :: rest =>
      let s := generateSensorData prevData now d
      s :: generateChain (some s) rest

/-- The raw (pre-rounding) clamped triple computed inside one
`generateSensorData` call, in the order (heartRate, eda, temperature). -/
def rawTriple (prevData : Option SensorData) (d : Draws) : ℚ × ℚ × ℚ :=
  (clampQ 50 120 (jsOr (prevData.map (·.heartRate)) 72 + (d.r1 - 0.5) * 8),
   clampQ 2 15 (jsOr (prevData.map (·.eda)) 6 + (d.r2 - 0.5) * 2),
   clampQ 35.5 38.5 (jsOr (prevData.map (·.temperature)) 36.8 + (d.r3 - 0.5) * 0.4))

/-! ## Helper lemmas -/

/-- The reduce `arr.reduce((a, b) => a[1] > b[1] ? a : b)` returns the LAST entry
attaining the maximal value: the array splits around the result, every
entry before it is `≤` it and every entry after it is `<` it. -/
theorem jsReduceMax_last_max {α β : Type} [LinearOrder β] (e : α × β) (l : List (α × β)) :
    ∃ l1 l2, e :: l = l1 ++ jsReduceMax e l :: l2 ∧
      (∀ x ∈ l1, x.2 ≤ (jsReduceMax e l).2) ∧
      (∀ x ∈ l2, x.2 < (jsReduceMax e l).2) := by
  induction l generalizing e with
  | nil =>
    exact ⟨[], [], rfl, by simp, by simp⟩
  | cons b bs ih =>
    have hstep : jsReduceMax e (b :: bs) = jsReduceMax (jsMaxStep e b) bs := rfl
    by_cases hgt : e.2 > b.2
    · have hse : jsMaxStep e b = e := if_pos hgt
      obtain ⟨l1, l2, hdec, h1, h2⟩ := ih (jsMaxStep e b)
      rw [hse] at hdec h1 h2
      rw [hstep, hse]
      cases l1 with
      | nil =>
        simp only [List.nil_append] at hdec
        obtain ⟨hre, hbs⟩ := List.cons.inj hdec
        refine ⟨[], b :: bs, ?_, by simp, ?_⟩
        · rw [List.nil_append, ← hre]
        · intro x hx
          rcases List.mem_cons.mp hx with hx | hx
          · subst hx
            rw [← hre]
            exact hgt
          · rw [hbs] at hx
            exact h2 x hx
      | cons a l1' =>
        simp only [List.cons_append] at hdec
        obtain ⟨hea, hbs⟩ := List.cons.inj hdec
        have he_le : e.2 ≤ (jsReduceMax e bs).2 := by
          have ha := h1 a (List.mem_cons_self a l1')
          rw [← hea] at ha
          exact ha
        refine ⟨e :: b :: l1', l2, ?_, ?_, h2⟩
        · rw [List.cons_append, List.cons_append]
          conv_lhs => rw [hbs]
        · intro x hx
          rcases List.mem_cons.mp hx with hx | hx
          · subst hx
            exact he_le
          · rcases List.mem_cons.mp hx with hx | hx
            · subst hx
              exact le_trans (le_of_lt hgt) he_le
            · exact h1 x (List.mem_cons_of_mem a hx)
    · have hse : jsMaxStep e b = b := if_neg hgt
      have hle : e.2 ≤ b.2 := le_of_not_lt hgt
      obtain ⟨l1, l2, hdec, h1, h2⟩ := ih (jsMaxStep e b)
      rw [hse] at hdec h1 h2
      rw [hstep, hse]
      have hbr : b.2 ≤ (jsReduceMax b bs).2 := by
        cases l1 with
        | nil =>
          simp only [List.nil_append] at hdec
          obtain ⟨hb, -⟩ := List.cons.inj hdec
          exact le_of_eq (congrArg Prod.snd hb)
        | cons a l1' =>
          simp only [List.cons_append] at hdec
          obtain ⟨hb, -⟩ := List.cons.inj hdec
          have ha := h1 a (List.mem_cons_self a l1')
          rw [← hb] at ha
          exact ha
      refine ⟨e :: l1, l2, ?_, ?_, h2⟩
      · rw [List.cons_append, hdec]
      · intro x hx
        rcases List.mem_cons.mp hx with hx | hx
        · subst hx
          exact le_trans hle hbr
        · exact h1 x hx

/-- The reduce result is one of the entries. -/
theorem jsReduceMax_mem {α β : Type} [LinearOrder β] (e : α × β) (l : List (α × β)) :
    jsReduceMax e l ∈ e :: l := by
  obtain ⟨l1, l2, hdec, -, -⟩ := jsReduceMax_last_max e l
  rw [hdec]
  exact List.mem_append_right _ (List.mem_cons_self _ _)

/-- Rounding to a fixed number of decimals is monotone. -/
theorem roundTo_mono (d : ℕ) {x y : ℚ} (h : x ≤ y) : roundTo d x ≤ roundTo d y := by
  have hp : (0 : ℚ) < 10 ^ d := by positivity
  have hm : x * 10 ^ d ≤ y * 10 ^ d := mul_le_mul_of_nonneg_right h hp.le
  have hr : ⌊x * 10 ^ d + 1 / 2⌋ ≤ ⌊y * 10 ^ d + 1 / 2⌋ :=
    Int.floor_le_floor (by linarith)
  unfold roundTo
  gcongr

/-- Rounding keeps a value between bounds that are themselves fixed
points of the rounding (e.g. the channel bounds, which have at most `d`
decimals). -/
theorem roundTo_bounds (d : ℕ) {lo hi x : ℚ} (hlo : roundTo d lo = lo)
    (hhi : roundTo d hi = hi) (h1 : lo ≤ x) (h2 : x ≤ hi) :
    lo ≤ roundTo d x ∧ roundTo d x ≤ hi :=
  ⟨hlo ▸ roundTo_mono d h1, hhi ▸ roundTo_mono d h2⟩

/-- The clamp `Math.max(lo, Math.min(hi, x))` lies within `[lo, hi]` when
`lo ≤ hi`. -/
theorem clampQ_bounds {lo hi : ℚ} (h : lo ≤ hi) (x : ℚ) :
    lo ≤ clampQ lo hi x ∧ clampQ lo hi x ≤ hi :=
  ⟨le_max_left _ _, max_le h (min_le_left _ _)⟩

/-- A rounded clamped channel stays within the clamp bounds. -/
theorem roundTo_clampQ_bounds (d : ℕ) {lo hi : ℚ} (h : lo ≤ hi)
    (hlo : roundTo d lo = lo) (hhi : roundTo d hi = hi) (x : ℚ) :
    lo ≤ roundTo d (clampQ lo hi x) ∧ roundTo d (clampQ lo hi x) ≤ hi := by
  obtain ⟨h1, h2⟩ := clampQ_bounds h x
  exact roundTo_bounds d hlo hhi h1 h2

/-- Every channel of one generated sample is within its declared
bounds, whatever the previous sample and the random draws. -/
theorem generateSensorData_bounds (prevData : Option SensorData) (now : ℚ) (d : Draws) :
    50 ≤ (generateSensorData prevData now d).heartRate ∧
    (generateSensorData prevData now d).heartRate ≤ 120 ∧
    2 ≤ (generateSensorData prevData now d).eda ∧
    (generateSensorData prevData now d).eda ≤ 15 ∧
    35.5 ≤ (generateSensorData prevData now d).temperature ∧
    (generateSensorData prevData now d).temperature ≤ 38.5 := by
  obtain ⟨hh1, hh2⟩ := roundTo_clampQ_bounds 1 (by norm_num : (50 : ℚ) ≤ 120)
    (by norm_num [roundTo]) (by norm_num [roundTo])
    (jsOr (prevData.map (·.heartRate)) 72 + (d.r1 - 0.5) * 8)
  obtain ⟨he1, he2⟩ := roundTo_clampQ_bounds 2 (by norm_num : (2 : ℚ) ≤ 15)
    (by norm_num [roundTo]) (by norm_num [roundTo])
    (jsOr (prevData.map (·.eda)) 6 + (d.r2 - 0.5) * 2)
  obtain ⟨ht1, ht2⟩ := roundTo_clampQ_bounds 1 (by norm_num : (35.5 : ℚ) ≤ 38.5)
    (by norm_num [roundTo]) (by norm_num [roundTo])
    (jsOr (prevData.map (·.temperature)) 36.8 + (d.r3 - 0.5) * 0.4)
  exact ⟨hh1, hh2, he1, he2, ht1, ht2⟩

/-- Every sample of a generation chain is within bounds. -/
theorem generateChain_bounds :
    ∀ (ds : List (ℚ × Draws)) (prevData : Option SensorData) (s : SensorData),
      s ∈ generateChain prevData ds →
      50 ≤ s.heartRate ∧ s.heartRate ≤ 120 ∧ 2 ≤ s.eda ∧ s.eda ≤ 15 ∧
      35.5 ≤ s.temperature ∧ s.temperature ≤ 38.5 := by
  intro ds
  induction ds with
  | nil =>
    intro prevData s hs
    simp [generateChain] at hs
  | cons p rest ih =>
    intro prevData s hs
    obtain ⟨now, d⟩ := p
    simp only [generateChain, List.mem_cons] at hs
    rcases hs with hs | hs
    · subst hs
      exact generateSensorData_bounds prevData now d
    · exact ih (some (generateSensorData prevData now d)) s hs

/-- Applying `bumpCount` never empties the counts. -/
theorem bumpCount_ne_nil (acc : List (String × ℕ)) (k : String) :
    bumpCount acc k ≠ [] := by
  cases acc with
  | nil => simp [bumpCount]
  | cons p rest =>
    obtain ⟨k', n⟩ := p
    by_cases h : k' = k <;> simp [bumpCount, h]

/-- Folding `bumpCount` over a history preserves nonemptiness. -/
theorem foldl_bumpCount_ne_nil (l : List SensorData) :
    ∀ acc : List (String × ℕ), acc ≠ [] →
      l.foldl (fun acc s => bumpCount acc s.emotion) acc ≠ [] := by
  induction l with
  | nil => intro acc h; simpa
  | cons s rest ih =>
    intro acc _
    exact ih (bumpCount acc s.emotion) (bumpCount_ne_nil acc s.emotion)

/-- A nonempty history has nonempty emotion counts. -/
theorem emotionCounts_ne_nil (s : SensorData) (rest : List SensorData) :
    emotionCounts (s :: rest) ≠ [] := by
  unfold emotionCounts
  simp only [List.foldl_cons]
  exact foldl_bumpCount_ne_nil rest _ (bumpCount_ne_nil [] s.emotion)

/-- Per-sample export/parse round trip. -/
theorem parseSample_sampleToJson (s : SensorData) :
    parseSample (sampleToJson s) = some s := rfl

/-- Parsing the elementwise serialization of any history gives back the
history. -/
theorem parseSampleList_map (l : List SensorData) :
    parseSampleList (l.map sampleToJson) = some l := by
  induction l with
  | nil => rfl
  | cons s rest ih => simp [parseSampleList, parseSample_sampleToJson, ih]

/-- The classifier's label is one of the five emotion keys. -/
theorem classifyEmotion_mem_labels (heartRate eda temperature r : ℚ) :
    (classifyEmotion heartRate eda temperature r).emotion ∈ emotionLabels := by
  have hm := jsReduceMax_mem (scoreEntries heartRate eda temperature).headI
    (scoreEntries heartRate eda temperature).tail
  have hc : (scoreEntries heartRate eda temperature).headI ::
      (scoreEntries heartRate eda temperature).tail
      = scoreEntries heartRate eda temperature := rfl
  rw [hc] at hm
  have he : (classifyEmotion heartRate eda temperature r).emotion
      = (jsReduceMax (scoreEntries heartRate eda temperature).headI
          (scoreEntries heartRate eda temperature).tail).1 := rfl
  rw [he]
  simp only [scoreEntries]
  simp only [scoreEntries, List.mem_cons, List.not_mem_nil, or_false] at hm
  rcases hm with h' | h' | h' | h' | h' <;> rw [h'] <;> simp [emotionLabels]

/-- Each of the five labels has an entry in the `EMOTIONS` table. -/
theorem lookup_isSome_of_mem_labels {em : String} (h : em ∈ emotionLabels) :
    (EMOTIONS.lookup em).isSome = true := by
  simp only [emotionLabels, List.mem_cons, List.not_mem_nil, or_false] at h
  rcases h with h | h | h | h | h <;> subst h <;> rfl

/-! ## Claims -/

/-- C3 (confirmed): with no previous sample and the random perturbation
at its zero-perturbation reference point (midpoint draw 0.5 for each
channel), `generateSensorData` returns exactly heartRate 72, eda 6,
temperature 36.8, whatever the timestamp and the confidence draw. -/
theorem generate_seed_baseline (now rc : ℚ) :
    (generateSensorData none now ⟨1/2, 1/2, 1/2, rc⟩).heartRate = 72 ∧
    (generateSensorData none now ⟨1/2, 1/2, 1/2, rc⟩).eda = 6 ∧
    (generateSensorData none now ⟨1/2, 1/2, 1/2, rc⟩).temperature = 36.8 := by
  refine ⟨?_, ?_, ?_⟩ <;>
    norm_num [generateSensorData, clampQ, jsOr, roundTo, max_def, min_def]

/-- C2 counterexample: `classifyEmotion(72, 6, 36.8)` selects
"stressed", not "calm" (the normalized features are 0.04, 0.1, 0.15,
not 0, and "stressed" has the strictly largest score); and at the
actual all-zero-features point (70, 5, 36.5), where all five scores tie
at 0, the tie resolves to "neutral" (the last label in insertion
order), not to "calm" (the first). -/
theorem classify_tiebreak_counterexample :
    (classifyEmotion 72 6 36.8 0).emotion = "stressed" ∧
    (classifyEmotion 70 5 36.5 0).emotion = "neutral" := by
  constructor <;>
    norm_num [classifyEmotion, scoreEntries, jsReduceMax, jsMaxStep, abs, max_def]

/-- C2 amended (proved): the selected label is the arg-max of the five
fixed linear scores with ties broken toward the LAST label in the order
calm, happy, stressed, focused, neutral: the score list splits around
an entry carrying the selected label whose score is `≥` every earlier
entry and `>` every later entry; and `classifyEmotion(72, 6, 36.8)`
selects "stressed". -/
theorem classify_label_last_argmax :
    (∀ heartRate eda temperature r : ℚ, ∃ p l1 l2,
        scoreEntries heartRate eda temperature = l1 ++ p :: l2 ∧
        (classifyEmotion heartRate eda temperature r).emotion = p.1 ∧
        (∀ x ∈ l1, x.2 ≤ p.2) ∧ (∀ x ∈ l2, x.2 < p.2)) ∧
    (∀ r : ℚ, (classifyEmotion 72 6 36.8 r).emotion = "stressed") := by
  constructor
  · intro heartRate eda temperature r
    obtain ⟨l1, l2, hdec, h1, h2⟩ :=
      jsReduceMax_last_max (scoreEntries heartRate eda temperature).headI
        (scoreEntries heartRate eda temperature).tail
    refine ⟨jsReduceMax (scoreEntries heartRate eda temperature).headI
      (scoreEntries heartRate eda temperature).tail, l1, l2, ?_, rfl, h1, h2⟩
    exact hdec
  · intro r
    norm_num [classifyEmotion, scoreEntries, jsReduceMax, jsMaxStep, abs, max_def]

/-- C8 (confirmed): the selected label does not depend on the random
draw; the draw only enters the confidence. -/
theorem classify_label_independent_of_draw (heartRate eda temperature r r' : ℚ) :
    (classifyEmotion heartRate eda temperature r).emotion
      = (classifyEmotion heartRate eda temperature r').emotion := rfl

/-- C4 counterexample: the bootstrap call with draws
(0.5, 0.525, 0.87, 0) stores the triple (72, 6.05, 36.9) — rounded from
the raw triple (72, 6.05, 36.948) — with emotion "happy" (the
classification of the raw triple), but classifying the stored triple
itself selects "stressed": the stored emotion is NOT the
classification of the stored (rounded) triple. -/
theorem sample_emotion_not_from_stored_triple :
    (generateSensorData none 0 ⟨1/2, 21/40, 87/100, 0⟩).heartRate = 72 ∧
    (generateSensorData none 0 ⟨1/2, 21/40, 87/100, 0⟩).eda = 6.05 ∧
    (generateSensorData none 0 ⟨1/2, 21/40, 87/100, 0⟩).temperature = 36.9 ∧
    (generateSensorData none 0 ⟨1/2, 21/40, 87/100, 0⟩).emotion = "happy" ∧
    (classifyEmotion 72 6.05 36.9 0).emotion = "stressed" := by
  refine ⟨?_, ?_, ?_, ?_, ?_⟩ <;>
    norm_num [generateSensorData, classifyEmotion, scoreEntries, jsReduceMax,
      jsMaxStep, clampQ, jsOr, roundTo, abs, max_def, min_def]

/-- C4 amended (proved): every produced sample's emotion and confidence
are exactly the classification of the RAW (pre-rounding) clamped
triple of that call — the classifier runs before the rounding, so the
stored rounded triple may classify differently. -/
theorem sample_emotion_from_raw_triple (prevData : Option SensorData) (now : ℚ) (d : Draws) :
    (generateSensorData prevData now d).emotion
      = (classifyEmotion (rawTriple prevData d).1 (rawTriple prevData d).2.1
          (rawTriple prevData d).2.2 d.rc).emotion ∧
    (generateSensorData prevData now d).confidence
      = roundTo 1 (classifyEmotion (rawTriple prevData d).1 (rawTriple prevData d).2.1
          (rawTriple prevData d).2.2 d.rc).confidence :=
  ⟨rfl, rfl⟩

/-- C5 (confirmed): in any chain of `generateSensorData` calls starting
from no previous sample, every produced sample's channels are within
their declared bounds — for arbitrary random draws. -/
theorem chain_channels_within_bounds (ds : List (ℚ × Draws)) (s : SensorData)
    (hs : s ∈ generateChain none ds) :
    50 ≤ s.heartRate ∧ s.heartRate ≤ 120 ∧ 2 ≤ s.eda ∧ s.eda ≤ 15 ∧
    35.5 ≤ s.temperature ∧ s.temperature ≤ 38.5 :=
  generateChain_bounds ds none s hs

/-- Witness for C5 at a concrete one-tick chain. -/
theorem chain_channels_within_bounds_witness :
    (generateSensorData none 0 ⟨0, 0, 0, 0⟩ ∈ generateChain none [(0, ⟨0, 0, 0, 0⟩)]) ∧
    (50 ≤ (generateSensorData none 0 ⟨0, 0, 0, 0⟩).heartRate ∧
     (generateSensorData none 0 ⟨0, 0, 0, 0⟩).heartRate ≤ 120 ∧
     2 ≤ (generateSensorData none 0 ⟨0, 0, 0, 0⟩).eda ∧
     (generateSensorData none 0 ⟨0, 0, 0, 0⟩).eda ≤ 15 ∧
     35.5 ≤ (generateSensorData none 0 ⟨0, 0, 0, 0⟩).temperature ∧
     (generateSensorData none 0 ⟨0, 0, 0, 0⟩).temperature ≤ 38.5) :=
  ⟨by simp [generateChain],
   chain_channels_within_bounds [(0, ⟨0, 0, 0, 0⟩)] _ (by simp [generateChain])⟩

/-- C7 (confirmed): the stored confidence is exactly
`min(94 + 6·r, 100)` rounded to 1 decimal, and lies in [94, 100], for
any confidence draw `r ∈ [0, 1)`. -/
theorem confidence_rounded_bounds (prevData : Option SensorData) (now : ℚ) (d : Draws)
    (h0 : 0 ≤ d.rc) (h1 : d.rc < 1) :
    (generateSensorData prevData now d).confidence = roundTo 1 (min (94 + d.rc * 6) 100) ∧
    94 ≤ (generateSensorData prevData now d).confidence ∧
    (generateSensorData prevData now d).confidence ≤ 100 := by
  have heq : (generateSensorData prevData now d).confidence
      = roundTo 1 (min (94 + d.rc * 6) 100) := rfl
  have hlo : (94 : ℚ) ≤ min (94 + d.rc * 6) 100 := le_min (by linarith) (by norm_num)
  have hhi : min (94 + d.rc * 6) 100 ≤ (100 : ℚ) := min_le_right _ _
  obtain ⟨hb1, hb2⟩ := roundTo_bounds 1
    (show roundTo 1 (94 : ℚ) = 94 by norm_num [roundTo])
    (show roundTo 1 (100 : ℚ) = 100 by norm_num [roundTo]) hlo hhi
  refine ⟨heq, ?_, ?_⟩
  · rw [heq]; exact hb1
  · rw [heq]; exact hb2

/-- Witness for C7 at the concrete draw r = 0. -/
theorem confidence_rounded_bounds_witness :
    ((0 : ℚ) ≤ 0 ∧ (0 : ℚ) < 1) ∧
    ((generateSensorData none 0 ⟨0, 0, 0, 0⟩).confidence
        = roundTo 1 (min (94 + (0 : ℚ) * 6) 100) ∧
     94 ≤ (generateSensorData none 0 ⟨0, 0, 0, 0⟩).confidence ∧
     (generateSensorData none 0 ⟨0, 0, 0, 0⟩).confidence ≤ 100) :=
  ⟨⟨le_refl 0, by decide⟩,
   confidence_rounded_bounds none 0 ⟨0, 0, 0, 0⟩ (le_refl 0) (by decide)⟩

/-- C10 (confirmed): the label selected by the classifier — and hence
the emotion of every sample produced by the pipeline — is one of the
five keys of the static `EMOTIONS` table, so the table lookup succeeds
and the unknown-key fallbacks are unreachable for pipeline samples. -/
theorem classify_label_in_table (heartRate eda temperature r : ℚ)
    (prevData : Option SensorData) (now : ℚ) (d : Draws) :
    (classifyEmotion heartRate eda temperature r).emotion ∈ emotionLabels ∧
    (EMOTIONS.lookup (classifyEmotion heartRate eda temperature r).emotion).isSome = true ∧
    (generateSensorData prevData now d).emotion ∈ emotionLabels ∧
    (EMOTIONS.lookup (generateSensorData prevData now d).emotion).isSome = true := by
  have hc := classifyEmotion_mem_labels heartRate eda temperature r
  have hg : (generateSensorData prevData now d).emotion ∈ emotionLabels :=
    classifyEmotion_mem_labels (rawTriple prevData d).1 (rawTriple prevData d).2.1
      (rawTriple prevData d).2.2 d.rc
  exact ⟨hc, lookup_isSome_of_mem_labels hc, hg, lookup_isSome_of_mem_labels hg⟩

/-- C9 (confirmed): parsing the exported JSON document reproduces the
retained history exactly, in order, with identical field names and
values. -/
theorem export_parse_roundtrip (hist : List SensorData) :
    parseExport (exportData hist) = some hist :=
  parseSampleList_map hist

/-- C6 counterexample: on the history [calm sample, happy sample] the
counts tie at 1 each, and the Session Summary's dominant emotion is
"happy" — the LAST max-count label in first-appearance order — not
"calm" as the fixed priority order calm > happy > ... would give. -/
theorem dominant_tiebreak_counterexample :
    emotionCounts [⟨0, 70, 5, 36, "calm", 95⟩, ⟨1, 80, 6, 37, "happy", 95⟩]
      = [("calm", 1), ("happy", 1)] ∧
    dominantEmotion [⟨0, 70, 5, 36, "calm", 95⟩, ⟨1, 80, 6, 37, "happy", 95⟩]
      = "happy" := by
  constructor <;> rfl

/-- C6 amended (proved): on a nonempty history the dominant emotion is
a label of maximal count, with ties broken toward the label attaining
the maximum LAST in first-appearance order (the counts list splits
around the returned entry, all earlier counts `≤` it and all later
counts `<` it); on an empty history it returns the "N/A" sentinel and
never an arbitrary label. -/
theorem dominant_last_argmax_and_empty_sentinel :
    (∀ (s : SensorData) (rest : List SensorData), ∃ p l1 l2,
        emotionCounts (s :: rest) = l1 ++ p :: l2 ∧
        dominantEmotion (s :: rest) = p.1 ∧
        (∀ x ∈ l1, x.2 ≤ p.2) ∧ (∀ x ∈ l2, x.2 < p.2)) ∧
    dominantEmotion [] = "N/A" := by
  constructor
  · intro s rest
    rcases hE : emotionCounts (s :: rest) with _ | ⟨e, es⟩
    · exact absurd hE (emotionCounts_ne_nil s rest)
    · obtain ⟨l1, l2, hdec, h1, h2⟩ := jsReduceMax_last_max e es
      refine ⟨jsReduceMax e es, l1, l2, ?_, ?_, h1, h2⟩
      · exact hdec
      · unfold dominantEmotion
        rw [hE]
        simp
  · rfl

/-- The 101 distinct samples appended in the C1 scenario. -/
def c1Samples : List SensorData :=
  (List.range 101).map fun i => ⟨(i : ℚ), 72, 6, 36, "calm", 95⟩

set_option maxRecDepth 100000 in
/-- C1 (code bug): the tick callback's history update
`[...prev.slice(-100), newReading]` keeps the last 100 PLUS the new
reading. After appending 101 samples to an empty history the length is
101 — not 100 — and the first appended sample is still present,
contradicting the cap of 100 and the code's own comment
"Keep last 100 readings". -/
theorem tick_append_overflows_cap :
    (c1Samples.foldl appendReading []).length = 101 ∧
    c1Samples.head? = some ⟨0, 72, 6, 36, "calm", 95⟩ ∧
    (⟨0, 72, 6, 36, "calm", 95⟩ : SensorData) ∈ c1Samples.foldl appendReading [] := by
  refine ⟨?_, ?_, ?_⟩ <;> decide

end EmotionTracker
